import Mathlib

/-!
# paymail-inspector: configuration resolution at start-up

A shallow embedding of `src/cmd/root.go` (package `cmd`): the functions `init`, `er`
and `initConfig`, together with the parts of the libraries they call.

* The code of `root.go` is embedded statement by statement (`er`, `initConfig`, `init`).
* `root.go` drives the package-level instance of `github.com/spf13/viper`. The methods it
  calls (`BindPFlag`, `SetConfigFile`, `AddConfigPath`, `SetConfigName`, `AutomaticEnv`,
  `ReadInConfig`, `ConfigFileUsed`, and `Get` with its lookup routine `find`) are embedded
  from that library, which is a dependency of the repository and not part of `src/`.
* Everything the process reads from outside (environment variables, the home directory,
  the file system) is collected in `World` and passed explicitly.
* Process effects are explicit: printed lines and log calls are appended to
  `Program.out`, and `os.Exit` is the constructor `Run.exited`.

Values are modelled as strings (the only bound flag, `bsvalias`, is a string flag) and
configuration keys are atomic (the keys of `root.go` contain no key delimiter `.`);
aliases, nested keys, an environment key replacer and remote key/value providers of viper
are not used by `root.go` and are not modelled beyond the empty `kvstore` layer.
-/

namespace PaymailInspector

/-! ## Constants of `root.go` -/

/-- Config file and application name (`configDefault`) -/
def configDefault : String := "paymail-inspector"

/-- Application version (`version`) -/
def version : String := "0.0.13"

/-- Key of the bsvalias flag (`flagBsvAlias`) -/
def flagBsvAlias : String := "bsvalias"

/-! ## Go values -/

/-- A Go `error` value: `none` is `nil`, `some msg` is an error whose `Error()` is `msg` -/
abbrev GoError := Option String

/-- A key/value layer (a Go `map[string]interface{}` restricted to string values) -/
abbrev Config := List (String × String)

/-- ASCII lower-casing of a key (`strings.ToLower` on the ASCII keys used here) -/
def toLower (s : String) : String := String.mk (s.data.map Char.toLower)

/-- ASCII upper-casing of a key (`strings.ToUpper` on the ASCII keys used here) -/
def toUpper (s : String) : String := String.mk (s.data.map Char.toUpper)

/-! ## The outside world -/

/-- What the process reads from its surroundings -/
structure World where
  /-- The function `os.LookupEnv`: the value of an environment variable, if it is set -/
  lookupEnv : String → Option String
  /-- Result of `homedir.Dir()`: the home directory, or the message of the error -/
  homeDir : Except String String
  /-- Path normalisation applied by `AddConfigPath` (`absPathify`) -/
  absPathify : String → String
  /-- The routine `searchInPath dir name` of viper: the first existing file `dir/name.ext`
  with a supported extension, or the empty string when there is none -/
  searchInPath : String → String → String
  /-- Reading and decoding a config file: the keys it defines, or the error of the
  first failing step (unsupported type, unreadable file, malformed content) -/
  readConfig : String → Except String Config

/-! ## pflag: flags of the root command -/

/-- A `pflag.Flag` holding a string value -/
structure Flag where
  /-- Name as it appears on the command line -/
  name : String
  /-- Current value (`Value.String()`) -/
  value : String
  /-- Default value, as declared at registration -/
  defValue : String
  /-- Whether the user set the value on the command line -/
  changed : Bool
  /-- Help text shown for the flag -/
  usage : String
  deriving DecidableEq, Repr

/-- The function `FlagSet.Lookup`: the flag of the given name, or `none` (Go `nil`) -/
def lookupFlag (flags : List Flag) (name : String) : Option Flag :=
  flags.find? (fun f => f.name == name)

/-- The function `FlagSet.String`/`StringVar`: register a string flag with its default -/
def addFlag (flags : List Flag) (name value usage : String) : List Flag :=
  flags ++ [{ name := name, value := value, defValue := value, changed := false,
              usage := usage }]

/-- The function `FlagSet.Set`: store a value given on the command line and mark the flag changed -/
def setFlag (flags : List Flag) (name value : String) : List Flag :=
  flags.map (fun f => if f.name == name then { f with value := value, changed := true } else f)

/-! ## viper -/

/-- The state of a `viper.Viper` instance -/
structure Viper where
  /-- Explicit config file (`SetConfigFile`), or the file found by the search -/
  configFile : String
  /-- Base name searched for -/
  configName : String
  /-- Directories searched, in order -/
  configPaths : List String
  /-- Set by `AutomaticEnv` -/
  automaticEnvApplied : Bool
  /-- Set by `AllowEmptyEnv` -/
  allowEmptyEnv : Bool
  /-- Set by `SetEnvPrefix` -/
  envPrefix : String
  /-- Values stored with `Set` -/
  override : Config
  /-- Keys bound to flags with `BindPFlag`: key and the name of the flag referred to -/
  pflags : List (String × String)
  /-- Keys bound to environment variables with `BindEnv` -/
  env : List (String × String)
  /-- Content of the config file read last -/
  config : Config
  /-- Content of a remote key/value store -/
  kvstore : Config
  /-- Values stored with `SetDefault` -/
  defaults : Config
  deriving DecidableEq, Repr

/-- The function `viper.New()`: the initial state of the package-level instance -/
def Viper.new : Viper :=
  { configFile := "", configName := "config", configPaths := [],
    automaticEnvApplied := false, allowEmptyEnv := false, envPrefix := "",
    override := [], pflags := [], env := [], config := [], kvstore := [], defaults := [] }

/-- The method `BindPFlag(key, flag)`: a `nil` flag is an error, otherwise the lower-cased
key is bound to the flag -/
def Viper.BindPFlag (v : Viper) (key : String) (flag : Option Flag) : Viper × GoError :=
  match flag with
  | none => (v, some ("flag for \"" ++ key ++ "\" is nil"))
  | some f => ({ v with pflags := (toLower key, f.name) :: v.pflags }, none)

/-- The method `SetConfigFile(in)` -/
def Viper.SetConfigFile (v : Viper) (file : String) : Viper :=
  if file ≠ "" then { v with configFile := file } else v

/-- The method `AddConfigPath(in)`: the normalised path is appended unless already present -/
def Viper.AddConfigPath (w : World) (v : Viper) (dir : String) : Viper :=
  if dir ≠ "" then
    let absin := w.absPathify dir
    if absin ∈ v.configPaths then v else { v with configPaths := v.configPaths ++ [absin] }
  else v

/-- The method `SetConfigName(in)`: also forgets the config file in use -/
def Viper.SetConfigName (v : Viper) (name : String) : Viper :=
  if name ≠ "" then { v with configName := name, configFile := "" } else v

/-- The method `AutomaticEnv()` -/
def Viper.AutomaticEnv (v : Viper) : Viper :=
  { v with automaticEnvApplied := true }

/-- The method `ConfigFileUsed()` -/
def Viper.ConfigFileUsed (v : Viper) : String := v.configFile

/-- The method `findConfigFile()`: the first file found along the search paths -/
def Viper.findConfigFile (w : World) (v : Viper) : Except String String :=
  match (v.configPaths.map (fun cp => w.searchInPath cp v.configName)).find? (fun f => f != "") with
  | some file => .ok file
  | none => .error ("Config File \"" ++ v.configName ++ "\" Not Found in \"[" ++
      " ".intercalate v.configPaths ++ "]\"")

/-- The method `getConfigFile()`: the explicit file, or the searched one, which is then
remembered -/
def Viper.getConfigFile (w : World) (v : Viper) : Viper × Except String String :=
  if v.configFile = "" then
    match v.findConfigFile w with
    | .error e => (v, .error e)
    | .ok cf => ({ v with configFile := cf }, .ok cf)
  else (v, .ok v.configFile)

/-- The method `ReadInConfig()`: locate the file, read and decode it, and on success
replace the config layer; any failure is returned and leaves the layer as it was -/
def Viper.ReadInConfig (w : World) (v : Viper) : Viper × GoError :=
  match v.getConfigFile w with
  | (v1, .error e) => (v1, some e)
  | (v1, .ok filename) =>
    match w.readConfig filename with
    | .error e => (v1, some e)
    | .ok config => ({ v1 with config := config }, none)

/-- The method `getEnv(key)`: an environment variable counts only if it is set and,
unless `AllowEmptyEnv` was called, non-empty -/
def Viper.getEnv (w : World) (v : Viper) (key : String) : Option String :=
  match w.lookupEnv key with
  | some val => if v.allowEmptyEnv || val != "" then some val else none
  | none => none

/-- The method `mergeWithEnvPrefix(in)`: name of the environment variable of a key -/
def Viper.mergeWithEnvPrefix (v : Viper) (s : String) : String :=
  if v.envPrefix ≠ "" then toUpper (v.envPrefix ++ "_" ++ s) else toUpper s

/-- The method `find(lcaseKey)`: the layers are consulted in the order `Set` overrides,
changed flags, environment, config file, key/value store, defaults, and last the value
of a bound flag that was not changed (its default) -/
def Viper.find (w : World) (flags : List Flag) (v : Viper) (lcaseKey : String) : Option String :=
  let flag : Option Flag := (v.pflags.lookup lcaseKey).bind (lookupFlag flags)
  match v.override.lookup lcaseKey with
  | some val => some val
  | none =>
  match flag.filter (fun f => f.changed) with
  | some f => some f.value
  | none =>
  match (if v.automaticEnvApplied then v.getEnv w (v.mergeWithEnvPrefix lcaseKey) else none) with
  | some val => some val
  | none =>
  match (v.env.lookup lcaseKey).bind (v.getEnv w) with
  | some val => some val
  | none =>
  match v.config.lookup lcaseKey with
  | some val => some val
  | none =>
  match v.kvstore.lookup lcaseKey with
  | some val => some val
  | none =>
  match v.defaults.lookup lcaseKey with
  | some val => some val
  | none => flag.map (fun f => f.value)

/-! ## chalker -/

/-- Modelled from the spec: the log levels of package `chalker` (not under `src/`);
`root.go` uses only the informational level `chalker.INFO` -/
inductive Level where
  | INFO
  deriving DecidableEq, Repr

/-- Something the process emitted: a line printed with `fmt.Println`, or a message
handed to the logging collaborator `chalker.Log` -/
inductive Output where
  | stdout (line : String)
  | log (level : Level) (message : String)
  deriving DecidableEq, Repr

/-! ## The program of `root.go` -/

/-- The package-level state of `cmd` -/
structure Program where
  /-- The variable `configFile`, the storage of the `--config` flag -/
  configFile : String
  /-- The persistent flags of `rootCmd` -/
  flags : List Flag
  /-- The package-level viper instance -/
  viper : Viper
  /-- Everything printed or logged so far, oldest first -/
  out : List Output
  deriving DecidableEq, Repr

/-- How far the process got: still running, or terminated by `os.Exit code` -/
inductive Run where
  | running (p : Program)
  | exited (code : Nat) (p : Program)
  deriving DecidableEq, Repr

/-- The state the process is in, or was in when it exited -/
def Run.program : Run → Program
  | .running p => p
  | .exited _ p => p

/-- Sequencing: nothing runs after `os.Exit` -/
def Run.andThen (r : Run) (f : Program → Run) : Run :=
  match r with
  | .running p => f p
  | .exited c p => .exited c p

/-- Modelled from the spec: the function `chalker.Log(level, message)` (package `chalker`
is not under `src/`), the logging collaborator; one call emits one message -/
def Log (level : Level) (message : String) (p : Program) : Program :=
  { p with out := p.out ++ [Output.log level message] }

/-- The function `er`: on a non-nil error print `Error: <message>` and exit with status 1 -/
def er (err : GoError) (p : Program) : Run :=
  match err with
  | some msg => .exited 1 { p with out := p.out ++ [Output.stdout ("Error: " ++ msg)] }
  | none => .running p

/-- The function `initConfig`: choose the config file (explicit path, or a search of the
home directory), enable the environment, read the file and log it when that worked -/
def initConfig (w : World) (p : Program) : Run :=
  let located : Run :=
    if p.configFile ≠ "" then
      -- Use config file from the flag.
      .running { p with viper := p.viper.SetConfigFile p.configFile }
    else
      -- Find home directory.
      match w.homeDir with
      | .error e => er (some e) p
      | .ok home =>
        (er none p).andThen fun p =>
          -- Search config in home directory with name "."+configDefault
          .running { p with viper :=
            (p.viper.AddConfigPath w home).SetConfigName ("." ++ configDefault) }
  located.andThen fun p =>
    let p1 : Program := { p with viper := p.viper.AutomaticEnv }
    match p1.viper.ReadInConfig w with
    | (v, none) =>
      .running (Log Level.INFO ("loaded config file: " ++ v.ConfigFileUsed) { p1 with viper := v })
    | (v, some _) => .running { p1 with viper := v }

/-- The state before any package initialisation -/
def Program.start : Program :=
  { configFile := "", flags := [], viper := Viper.new, out := [] }

/-- The function `init`: register the persistent flags `config` and `bsvalias` and bind the
key `bsvalias` to its flag. `defaultBsvAliasVersion` stands for the constant
`paymail.DefaultBsvAliasVersion`, declared outside `src/`. The two other statements of
`init` do not touch this state: `chalker.SetPrefix` only sets the prefix with which log
messages are rendered, and `cobra.OnInitialize(initConfig)` registers the hook that
`startup` runs after flag parsing -/
def init (defaultBsvAliasVersion : String) (p : Program) : Run :=
  -- Add config option
  let p1 : Program :=
    { p with configFile := "",
             flags := addFlag p.flags "config" ""
               ("config file (default is $HOME/." ++ configDefault ++ ".yaml)") }
  -- Add a bsvalias version to target
  let p2 : Program :=
    { p1 with flags := addFlag p1.flags flagBsvAlias defaultBsvAliasVersion
                ("The " ++ flagBsvAlias ++ " version") }
  let (v, err) := p2.viper.BindPFlag flagBsvAlias (lookupFlag p2.flags flagBsvAlias)
  er err { p2 with viper := v }

/-- The persistent flags given on a command line: for each, the value supplied, if any -/
structure Args where
  /-- Value of `--config` -/
  config : Option String
  /-- Value of `--bsvalias` -/
  bsvalias : Option String

/-- Flag parsing by cobra: each supplied value is stored in its flag; the `config` flag
was registered with `StringVar`, so its value is the variable `configFile` -/
def parseFlags (args : Args) (p : Program) : Program :=
  let p1 : Program :=
    match args.config with
    | some c => { p with configFile := c, flags := setFlag p.flags "config" c }
    | none => p
  match args.bsvalias with
  | some a => { p1 with flags := setFlag p1.flags flagBsvAlias a }
  | none => p1

/-- Start-up of the process up to the point where a command body would run: package
`init`, flag parsing, then the hook registered with `cobra.OnInitialize` -/
def startup (defaultBsvAliasVersion : String) (args : Args) (w : World) : Run :=
  (init defaultBsvAliasVersion Program.start).andThen fun p =>
    initConfig w (parseFlags args p)

/-- The function `viper.Get(key)` on the package-level instance -/
def Get (w : World) (p : Program) (key : String) : Option String :=
  p.viper.find w p.flags (toLower key)

/-! ## Auxiliary definitions and example inputs -/

/-- The second half of `initConfig`, entered once the config file location is chosen:
enable the environment, read the file, log it on success -/
def readAndLog (w : World) (p : Program) : Program :=
  let p1 : Program := { p with viper := p.viper.AutomaticEnv }
  match p1.viper.ReadInConfig w with
  | (v, none) => Log Level.INFO ("loaded config file: " ++ v.ConfigFileUsed) { p1 with viper := v }
  | (v, some _) => { p1 with viper := v }

/-- The resolver layers that neither the choice of the config file nor reading it touches -/
def Viper.sameLayers (v v1 : Viper) : Prop :=
  v1.pflags = v.pflags ∧ v1.override = v.override ∧ v1.env = v.env ∧
  v1.kvstore = v.kvstore ∧ v1.defaults = v.defaults ∧
  v1.allowEmptyEnv = v.allowEmptyEnv ∧ v1.envPrefix = v.envPrefix

/-- The program state in which `initConfig` is entered: the flags registered by `init`
carry what the command line supplied (`c` for `--config`, `a` for `--bsvalias`) -/
def parsed (D : String) (c a : Option String) : Program :=
  { configFile := c.getD "",
    flags := [{ name := "config", value := c.getD "", defValue := "", changed := c.isSome,
                usage := "config file (default is $HOME/.paymail-inspector.yaml)" },
              { name := "bsvalias", value := a.getD D, defValue := D, changed := a.isSome,
                usage := "The bsvalias version" }],
    viper := { Viper.new with pflags := [("bsvalias", "bsvalias")] },
    out := [] }

/-- A world with a home directory holding `.paymail-inspector.yaml`, which defines
`bsvalias: "2.0"`, and with the environment variable `BSVALIAS=1.1` -/
def worldFileAndEnv : World :=
  { lookupEnv := fun n => if n = "BSVALIAS" then some "1.1" else none,
    homeDir := .ok "/home/u",
    absPathify := fun s => s,
    searchInPath := fun d n =>
      if d = "/home/u" ∧ n = ".paymail-inspector" then "/home/u/.paymail-inspector.yaml" else "",
    readConfig := fun f =>
      if f = "/home/u/.paymail-inspector.yaml" then .ok [("bsvalias", "2.0")]
      else .error ("open " ++ f ++ ": no such file or directory") }

/-- A world without any config file, in which `BSVALIAS` is set to the empty string -/
def worldEmptyEnv : World :=
  { lookupEnv := fun n => if n = "BSVALIAS" then some "" else none,
    homeDir := .ok "/home/u",
    absPathify := fun s => s,
    searchInPath := fun _ _ => "",
    readConfig := fun f => .error ("open " ++ f ++ ": no such file or directory") }

/-- A world without any config file and with an empty environment -/
def worldBare : World :=
  { lookupEnv := fun _ => none,
    homeDir := .ok "/home/u",
    absPathify := fun s => s,
    searchInPath := fun _ _ => "",
    readConfig := fun f => .error ("open " ++ f ++ ": no such file or directory") }

/-- A world with two config files and an empty environment: `/tmp/a.yaml` does not
define `bsvalias`, while `.paymail-inspector.yaml` in the home directory does -/
def worldTwoFiles : World :=
  { lookupEnv := fun _ => none,
    homeDir := .ok "/home/u",
    absPathify := fun s => s,
    searchInPath := fun d n =>
      if d = "/home/u" ∧ n = ".paymail-inspector" then "/home/u/.paymail-inspector.yaml" else "",
    readConfig := fun f =>
      if f = "/tmp/a.yaml" then .ok [("sender-name", "MrZ")]
      else if f = "/home/u/.paymail-inspector.yaml" then .ok [("bsvalias", "2.0")]
      else .error ("open " ++ f ++ ": no such file or directory") }

/-- A world whose home directory holds `.paymail-inspector.json` and no
`.paymail-inspector.yaml` -/
def worldJsonFile : World :=
  { lookupEnv := fun _ => none,
    homeDir := .ok "/home/u",
    absPathify := fun s => s,
    searchInPath := fun d n =>
      if d = "/home/u" ∧ n = ".paymail-inspector" then "/home/u/.paymail-inspector.json" else "",
    readConfig := fun f =>
      if f = "/home/u/.paymail-inspector.json" then .ok [("bsvalias", "2.0")]
      else .error ("open " ++ f ++ ": no such file or directory") }

/-- A world in which the home directory lookup returns the empty string without error -/
def worldEmptyHome : World :=
  { worldBare with homeDir := .ok "" }

/-- A world in which the home directory cannot be determined -/
def worldNoHome : World :=
  { worldBare with homeDir := .error "blank output when reading home directory" }

/-! ## Auxiliary facts -/

theorem init_start (D : String) :
    init D Program.start = .running
      { configFile := "",
        flags := [{ name := "config", value := "", defValue := "", changed := false,
                    usage := "config file (default is $HOME/.paymail-inspector.yaml)" },
                  { name := "bsvalias", value := D, defValue := D, changed := false,
                    usage := "The bsvalias version" }],
        viper := { Viper.new with pflags := [("bsvalias", "bsvalias")] },
        out := [] } := by
  rfl

theorem parsed_eq (D : String) (c a : Option String) :
    Run.running (parsed D c a) = (init D Program.start).andThen fun p =>
      .running (parseFlags ⟨c, a⟩ p) := by
  cases c <;> cases a <;> rfl

theorem startup_eq (D : String) (c a : Option String) (w : World) :
    startup D ⟨c, a⟩ w = initConfig w (parsed D c a) := by
  cases c <;> cases a <;> rfl

theorem initConfig_explicit (w : World) (p : Program) (hc : p.configFile ≠ "") :
    initConfig w p =
      .running (readAndLog w { p with viper := { p.viper with configFile := p.configFile } }) := by
  simp only [initConfig, readAndLog, Viper.SetConfigFile, hc, Run.andThen, ne_eq, not_false_eq_true,
    if_true]
  split <;> simp_all

theorem initConfig_abort (w : World) (p : Program) (e : String) (hc : p.configFile = "")
    (hh : w.homeDir = .error e) :
    initConfig w p = .exited 1 { p with out := p.out ++ [Output.stdout ("Error: " ++ e)] } := by
  simp [initConfig, hc, hh, er, Run.andThen]

theorem initConfig_search (w : World) (p : Program) (home : String) (hc : p.configFile = "")
    (hh : w.homeDir = .ok home) :
    initConfig w p =
      .running (readAndLog w { p with viper :=
        { p.viper.AddConfigPath w home with
            configName := ".paymail-inspector", configFile := "" } }) := by
  have hn : "." ++ configDefault = ".paymail-inspector" := by decide
  simp only [initConfig, readAndLog, hc, hh, er, Run.andThen, Viper.SetConfigName, hn]
  rcases hR : Viper.ReadInConfig w (Viper.AutomaticEnv
      { p.viper.AddConfigPath w home with
          configName := ".paymail-inspector", configFile := "" }) with ⟨v, _ | e⟩ <;>
    simp_all

theorem readInConfig_explicit_ok (w : World) (v : Viper) (cfg : Config)
    (hc : v.configFile ≠ "") (hr : w.readConfig v.configFile = .ok cfg) :
    v.ReadInConfig w = ({ v with config := cfg }, none) := by
  simp [Viper.ReadInConfig, Viper.getConfigFile, hc, hr]

theorem readInConfig_explicit_err (w : World) (v : Viper) (e : String)
    (hc : v.configFile ≠ "") (hr : w.readConfig v.configFile = .error e) :
    v.ReadInConfig w = (v, some e) := by
  simp [Viper.ReadInConfig, Viper.getConfigFile, hc, hr]

theorem readInConfig_search_none (w : World) (v : Viper) (e : String)
    (hc : v.configFile = "") (hf : v.findConfigFile w = .error e) :
    v.ReadInConfig w = (v, some e) := by
  simp [Viper.ReadInConfig, Viper.getConfigFile, hc, hf]

theorem readInConfig_search_ok (w : World) (v : Viper) (cf : String) (cfg : Config)
    (hc : v.configFile = "") (hf : v.findConfigFile w = .ok cf) (hr : w.readConfig cf = .ok cfg) :
    v.ReadInConfig w = ({ v with configFile := cf, config := cfg }, none) := by
  simp [Viper.ReadInConfig, Viper.getConfigFile, hc, hf, hr]

theorem readInConfig_search_err (w : World) (v : Viper) (cf e : String)
    (hc : v.configFile = "") (hf : v.findConfigFile w = .ok cf) (hr : w.readConfig cf = .error e) :
    v.ReadInConfig w = ({ v with configFile := cf }, some e) := by
  simp [Viper.ReadInConfig, Viper.getConfigFile, hc, hf, hr]

/-- One of five things happens in `ReadInConfig` -/
theorem readInConfig_cases (w : World) (v : Viper) :
    (∃ file cfg, w.readConfig file = .ok cfg ∧
        v.ReadInConfig w = ({ v with configFile := file, config := cfg }, none)) ∨
    (∃ file e, v.ReadInConfig w = ({ v with configFile := file }, some e)) := by
  by_cases hc : v.configFile = ""
  · cases hf : v.findConfigFile w with
    | error e => exact Or.inr ⟨v.configFile, e, readInConfig_search_none w v e hc hf⟩
    | ok cf =>
      cases hr : w.readConfig cf with
      | error e => exact Or.inr ⟨cf, e, readInConfig_search_err w v cf e hc hf hr⟩
      | ok cfg => exact Or.inl ⟨cf, cfg, hr, readInConfig_search_ok w v cf cfg hc hf hr⟩
  · cases hr : w.readConfig v.configFile with
    | error e => exact Or.inr ⟨v.configFile, e, readInConfig_explicit_err w v e hc hr⟩
    | ok cfg => exact Or.inl ⟨v.configFile, cfg, hr, readInConfig_explicit_ok w v cfg hc hr⟩

theorem readAndLog_cases (w : World) (p : Program) :
    (∃ file cfg, w.readConfig file = .ok cfg ∧
        readAndLog w p =
          { p with
              viper := { p.viper with
                automaticEnvApplied := true, configFile := file, config := cfg },
              out := p.out ++ [Output.log Level.INFO ("loaded config file: " ++ file)] }) ∨
    (∃ file, readAndLog w p =
          { p with viper := { p.viper with automaticEnvApplied := true, configFile := file } }) := by
  rcases readInConfig_cases w p.viper.AutomaticEnv with ⟨file, cfg, hr, h⟩ | ⟨file, e, h⟩
  · refine Or.inl ⟨file, cfg, hr, ?_⟩
    simp only [readAndLog, h]
    simp [Log, Viper.AutomaticEnv, Viper.ConfigFileUsed]
  · refine Or.inr ⟨file, ?_⟩
    simp only [readAndLog, h]
    simp [Viper.AutomaticEnv]

theorem sameLayers_trans {a b c : Viper} (h1 : a.sameLayers b) (h2 : b.sameLayers c) :
    a.sameLayers c := by
  obtain ⟨a1, a2, a3, a4, a5, a6, a7⟩ := h1
  obtain ⟨b1, b2, b3, b4, b5, b6, b7⟩ := h2
  exact ⟨b1.trans a1, b2.trans a2, b3.trans a3, b4.trans a4, b5.trans a5, b6.trans a6,
    b7.trans a7⟩

theorem addConfigPath_sameLayers (w : World) (v : Viper) (dir : String) :
    v.sameLayers (v.AddConfigPath w dir) := by
  by_cases hd : dir = ""
  · simp [Viper.AddConfigPath, Viper.sameLayers, hd]
  · by_cases hm : w.absPathify dir ∈ v.configPaths <;>
      simp [Viper.AddConfigPath, Viper.sameLayers, hd, hm]

theorem readAndLog_frame (w : World) (p : Program) :
    (readAndLog w p).flags = p.flags ∧ (readAndLog w p).configFile = p.configFile ∧
    p.viper.sameLayers (readAndLog w p).viper ∧
    (readAndLog w p).viper.automaticEnvApplied = true := by
  rcases readAndLog_cases w p with ⟨file, cfg, _, h⟩ | ⟨file, h⟩ <;>
    simp [h, Viper.sameLayers]

theorem initConfig_frame (w : World) (p : Program) :
    (initConfig w p).program.flags = p.flags ∧
    (initConfig w p).program.configFile = p.configFile ∧
    p.viper.sameLayers (initConfig w p).program.viper := by
  by_cases hc : p.configFile = ""
  · cases hh : w.homeDir with
    | error e => simp [initConfig_abort w p e hc hh, Run.program, Viper.sameLayers]
    | ok home =>
      rw [initConfig_search w p home hc hh]
      obtain ⟨h1, h2, h3, _⟩ := readAndLog_frame w { p with viper :=
        { p.viper.AddConfigPath w home with
            configName := ".paymail-inspector", configFile := "" } }
      exact ⟨h1, h2, sameLayers_trans (addConfigPath_sameLayers w p.viper home) h3⟩
  · rw [initConfig_explicit w p hc]
    exact ⟨(readAndLog_frame w _).1, (readAndLog_frame w _).2.1, (readAndLog_frame w _).2.2.1⟩

/-- Whether `initConfig` got as far as enabling the environment -/
theorem initConfig_running_env (w : World) (p q : Program) (h : initConfig w p = .running q) :
    q.viper.automaticEnvApplied = true := by
  by_cases hc : p.configFile = ""
  · cases hh : w.homeDir with
    | error e => rw [initConfig_abort w p e hc hh] at h; cases h
    | ok home =>
      rw [initConfig_search w p home hc hh] at h
      injection h with h
      rw [← h]; exact (readAndLog_frame w _).2.2.2
  · rw [initConfig_explicit w p hc] at h
    injection h with h
    rw [← h]; exact (readAndLog_frame w _).2.2.2

/-- A flag given on the command line decides the value of `bsvalias` -/
theorem get_bsvalias_changed (w : World) (q : Program) (D v : String)
    (hf : lookupFlag q.flags "bsvalias" =
      some { name := "bsvalias", value := v, defValue := D, changed := true,
             usage := "The bsvalias version" })
    (hl : Viper.sameLayers { Viper.new with pflags := [("bsvalias", "bsvalias")] } q.viper) :
    Get w q flagBsvAlias = some v := by
  obtain ⟨h1, h2, -⟩ := hl
  have hlow : toLower flagBsvAlias = "bsvalias" := by decide
  simp only [Viper.new] at h1 h2
  simp [Get, Viper.find, hlow, h1, h2, hf, Option.filter]

/-- Without a flag on the command line the value of `bsvalias` comes from the
environment, then the config layer, then the default of the flag -/
theorem get_bsvalias_unchanged (w : World) (q : Program) (D : String)
    (hf : lookupFlag q.flags "bsvalias" =
      some { name := "bsvalias", value := D, defValue := D, changed := false,
             usage := "The bsvalias version" })
    (hl : Viper.sameLayers { Viper.new with pflags := [("bsvalias", "bsvalias")] } q.viper) :
    Get w q flagBsvAlias =
      match (if q.viper.automaticEnvApplied then
          (w.lookupEnv "BSVALIAS").filter (fun e => e != "") else none) with
      | some e => some e
      | none =>
        match q.viper.config.lookup "bsvalias" with
        | some f => some f
        | none => some D := by
  obtain ⟨h1, h2, h3, h4, h5, h6, h7⟩ := hl
  have hlow : toLower flagBsvAlias = "bsvalias" := by decide
  have hup : toUpper "bsvalias" = "BSVALIAS" := by decide
  simp only [Viper.new] at h1 h2 h3 h4 h5 h6 h7
  cases hb : q.viper.automaticEnvApplied <;>
  cases hcfg : List.lookup "bsvalias" q.viper.config <;>
  rcases he : w.lookupEnv "BSVALIAS" with _ | e <;>
  simp [Get, Viper.find, hlow, h1, h2, h3, h4, h5, h6, h7, hf, hup, Viper.getEnv,
    Viper.mergeWithEnvPrefix, Option.filter, hb, hcfg, he]

theorem startup_layers (D : String) (c a : Option String) (w : World) :
    lookupFlag (startup D ⟨c, a⟩ w).program.flags "bsvalias" =
      some { name := "bsvalias", value := a.getD D, defValue := D, changed := a.isSome,
             usage := "The bsvalias version" } ∧
    Viper.sameLayers { Viper.new with pflags := [("bsvalias", "bsvalias")] }
      (startup D ⟨c, a⟩ w).program.viper := by
  rw [startup_eq]
  obtain ⟨h1, _, h3⟩ := initConfig_frame w (parsed D c a)
  refine ⟨?_, h3⟩
  rw [h1]
  rfl

theorem get_startup_flag (D : String) (c : Option String) (v : String) (w : World) :
    Get w (startup D ⟨c, some v⟩ w).program flagBsvAlias = some v :=
  get_bsvalias_changed w _ D v (startup_layers D c (some v) w).1 (startup_layers D c (some v) w).2

theorem get_startup_noflag (D : String) (c : Option String) (w : World) :
    Get w (startup D ⟨c, none⟩ w).program flagBsvAlias =
      match (if (startup D ⟨c, none⟩ w).program.viper.automaticEnvApplied then
          (w.lookupEnv "BSVALIAS").filter (fun e => e != "") else none) with
      | some e => some e
      | none =>
        match (startup D ⟨c, none⟩ w).program.viper.config.lookup "bsvalias" with
        | some f => some f
        | none => some D :=
  get_bsvalias_unchanged w _ D (startup_layers D c none w).1 (startup_layers D c none w).2

/-! ## Precedence of the configuration sources -/

/-- C1: when `--bsvalias v` is given on the command line, `Get("bsvalias")` is `v` once
start-up is over, for every config file content, every environment, every `--config`
value and every declared default. -/
theorem flag_value_wins (D : String) (c : Option String) (v : String) (w : World) :
    Get w (startup D ⟨c, some v⟩ w).program flagBsvAlias = some v :=
  get_startup_flag D c v w

/-- C2, as stated, fails: with no flag, a config file defining `bsvalias: 2.0` and
`BSVALIAS=1.1` in the environment, `Get("bsvalias")` is the environment value `1.1`,
not the value `2.0` of the file. -/
theorem file_over_env_fails :
    startup "1.0" ⟨none, none⟩ worldFileAndEnv =
      .running (startup "1.0" ⟨none, none⟩ worldFileAndEnv).program ∧
    (startup "1.0" ⟨none, none⟩ worldFileAndEnv).program.viper.config.lookup "bsvalias"
      = some "2.0" ∧
    worldFileAndEnv.lookupEnv "BSVALIAS" = some "1.1" ∧
    Get worldFileAndEnv (startup "1.0" ⟨none, none⟩ worldFileAndEnv).program "bsvalias"
      = some "1.1" ∧
    Get worldFileAndEnv (startup "1.0" ⟨none, none⟩ worldFileAndEnv).program "bsvalias"
      ≠ some "2.0" := by
  decide

/-- C2, amended: with no flag supplied and a loaded config file that defines `bsvalias`
as `f`, `Get("bsvalias")` is the value of the environment variable `BSVALIAS` when that
is set and non-empty, and `f` otherwise: the environment ranks above the config file. -/
theorem env_overrides_file (D : String) (c : Option String) (w : World) (p : Program)
    (f : String) (hrun : startup D ⟨c, none⟩ w = .running p)
    (hfile : p.viper.config.lookup flagBsvAlias = some f) :
    Get w p flagBsvAlias =
      match w.lookupEnv "BSVALIAS" with
      | some e => if e = "" then some f else some e
      | none => some f := by
  have henv : p.viper.automaticEnvApplied = true := by
    rw [startup_eq] at hrun
    exact initConfig_running_env w _ p hrun
  have hg := get_startup_noflag D c w
  rw [hrun] at hg
  simp only [Run.program] at hg
  have hfile2 : List.lookup "bsvalias" p.viper.config = some f := hfile
  rw [hg]
  rcases w.lookupEnv "BSVALIAS" with _ | e
  · simp [henv, hfile2]
  · by_cases he : e = "" <;> simp [Option.filter, he, henv, hfile2]

/-- Witness of `env_overrides_file`: a run in which the file defines `2.0` and the
environment `1.1` -/
theorem env_overrides_file_witness :
    Get worldFileAndEnv (startup "1.0" ⟨none, none⟩ worldFileAndEnv).program flagBsvAlias =
      match worldFileAndEnv.lookupEnv "BSVALIAS" with
      | some e => if e = "" then some "2.0" else some e
      | none => some "2.0" :=
  env_overrides_file "1.0" none worldFileAndEnv _ "2.0" (by decide) (by decide)

/-- C5: with no flag supplied, no environment variable `BSVALIAS` and no entry for
`bsvalias` in the config file that was loaded (the config layer once start-up is over),
`Get("bsvalias")` is the default declared at registration (the constant
`paymail.DefaultBsvAliasVersion`); files that were not loaded may define the key. -/
theorem default_when_nothing_set (D : String) (c : Option String) (w : World)
    (henv : w.lookupEnv (toUpper flagBsvAlias) = none)
    (hfile : (startup D ⟨c, none⟩ w).program.viper.config.lookup flagBsvAlias = none) :
    Get w (startup D ⟨c, none⟩ w).program flagBsvAlias = some D := by
  have hup : toUpper flagBsvAlias = "BSVALIAS" := by decide
  rw [hup] at henv
  have hcfg : List.lookup "bsvalias" (startup D ⟨c, none⟩ w).program.viper.config = none :=
    hfile
  rw [get_startup_noflag]
  simp [henv, hcfg]

/-- Witness of `default_when_nothing_set`: `--config /tmp/a.yaml` is loaded and does not
define `bsvalias`; the file in the home directory defines it but is not loaded -/
theorem default_when_nothing_set_witness :
    (startup "1.0" ⟨some "/tmp/a.yaml", none⟩ worldTwoFiles).program.viper.config
      = [("sender-name", "MrZ")] ∧
    worldTwoFiles.readConfig "/home/u/.paymail-inspector.yaml" = .ok [("bsvalias", "2.0")] ∧
    Get worldTwoFiles (startup "1.0" ⟨some "/tmp/a.yaml", none⟩ worldTwoFiles).program
      flagBsvAlias = some "1.0" :=
  ⟨by decide, rfl,
   default_when_nothing_set "1.0" (some "/tmp/a.yaml") worldTwoFiles (by decide) (by decide)⟩

/-- C6, as stated, fails for an empty value: with no flag, no config file and `BSVALIAS`
set to the empty string, `Get("bsvalias")` is the declared default `1.0`, not the
empty string. -/
theorem empty_env_value_ignored :
    worldEmptyEnv.lookupEnv (toUpper flagBsvAlias) = some "" ∧
    startup "1.0" ⟨none, none⟩ worldEmptyEnv =
      .running (startup "1.0" ⟨none, none⟩ worldEmptyEnv).program ∧
    (startup "1.0" ⟨none, none⟩ worldEmptyEnv).program.viper.config = [] ∧
    (startup "1.0" ⟨none, none⟩ worldEmptyEnv).program.out = [] ∧
    Get worldEmptyEnv (startup "1.0" ⟨none, none⟩ worldEmptyEnv).program flagBsvAlias
      = some "1.0" ∧
    Get worldEmptyEnv (startup "1.0" ⟨none, none⟩ worldEmptyEnv).program flagBsvAlias
      ≠ some "" := by
  decide

/-- C6, amended: with no flag supplied, if the environment variable `BSVALIAS` (the
upper-cased key) is set to a non-empty value `e`, then after `initConfig` has run
`Get("bsvalias")` is `e`, not the declared default; this holds whether or not a config
file was found. -/
theorem env_overrides_default (D : String) (c : Option String) (w : World) (p : Program)
    (e : String) (hrun : startup D ⟨c, none⟩ w = .running p)
    (henv : w.lookupEnv (toUpper flagBsvAlias) = some e) (hne : e ≠ "") :
    Get w p flagBsvAlias = some e := by
  have hup : toUpper flagBsvAlias = "BSVALIAS" := by decide
  rw [hup] at henv
  have happ : p.viper.automaticEnvApplied = true := by
    rw [startup_eq] at hrun
    exact initConfig_running_env w _ p hrun
  have hg := get_startup_noflag D c w
  rw [hrun] at hg
  simp only [Run.program] at hg
  rw [hg]
  simp [Option.filter, hne, happ, henv]

/-- Witness of `env_overrides_default`: `BSVALIAS=1.1` beats the default `1.0` -/
theorem env_overrides_default_witness :
    Get worldFileAndEnv (startup "1.0" ⟨none, none⟩ worldFileAndEnv).program flagBsvAlias
      = some "1.1" :=
  env_overrides_default "1.0" none worldFileAndEnv _ "1.1" (by decide) (by decide) (by decide)

/-! ## Reading the config file: errors, logging, location -/

theorem readAndLog_of_err (w : World) (p : Program) (v : Viper) (e : String)
    (h : p.viper.AutomaticEnv.ReadInConfig w = (v, some e)) :
    readAndLog w p = { p with viper := v } := by
  simp only [readAndLog, h]

theorem readAndLog_of_ok (w : World) (p : Program) (v : Viper)
    (h : p.viper.AutomaticEnv.ReadInConfig w = (v, none)) :
    readAndLog w p =
      { p with viper := v,
               out := p.out ++ [Output.log Level.INFO ("loaded config file: " ++ v.configFile)] } := by
  simp only [readAndLog, h, Log, Viper.ConfigFileUsed]

theorem findConfigFile_none (w : World) (v : Viper)
    (h : ∀ cp ∈ v.configPaths, w.searchInPath cp v.configName = "") :
    ∃ e, v.findConfigFile w = .error e := by
  have hnone : (v.configPaths.map (fun cp => w.searchInPath cp v.configName)).find?
      (fun f => f != "") = none := by
    rw [List.find?_eq_none]
    intro x hx
    rw [List.mem_map] at hx
    obtain ⟨cp, hcp, rfl⟩ := hx
    simp [h cp hcp]
  refine ⟨"Config File \"" ++ v.configName ++ "\" Not Found in \"[" ++
      " ".intercalate v.configPaths ++ "]\"", ?_⟩
  simp only [Viper.findConfigFile, hnone]

/-- C3, as stated, fails: with `--config /nonexistent/path`, a path that cannot be read,
start-up does not exit; `initConfig` returns normally and prints nothing. -/
theorem unreadable_config_does_not_exit :
    worldBare.readConfig "/nonexistent/path" =
      .error "open /nonexistent/path: no such file or directory" ∧
    startup "1.0" ⟨some "/nonexistent/path", none⟩ worldBare =
      .running (startup "1.0" ⟨some "/nonexistent/path", none⟩ worldBare).program ∧
    (startup "1.0" ⟨some "/nonexistent/path", none⟩ worldBare).program.out = [] :=
  ⟨rfl, by decide, by decide⟩

/-- C3, amended: when `--config` is given a non-empty path that cannot be read,
`initConfig` ignores the error of `ReadInConfig`: start-up returns normally, nothing is
printed or logged, the path stays registered as the config file and the config layer
stays empty, so that the command body runs on flags, environment and defaults. -/
theorem unreadable_config_ignored (D : String) (a : Option String) (w : World)
    (path e : String) (hp : path ≠ "") (hr : w.readConfig path = .error e) :
    ∃ p, startup D ⟨some path, a⟩ w = .running p ∧ p.out = [] ∧
      p.viper.configFile = path ∧ p.viper.config = [] := by
  have hq := readAndLog_of_err w
    { parsed D (some path) a with
        viper := { (parsed D (some path) a).viper with configFile := path } } _ e
    (readInConfig_explicit_err w _ e hp hr)
  have hstart := startup_eq D (some path) a w
  rw [initConfig_explicit w (parsed D (some path) a) hp] at hstart
  exact ⟨_, hstart.trans (congrArg Run.running hq), rfl, rfl, rfl⟩

/-- Witness of `unreadable_config_ignored`: `--config /nonexistent/path` -/
theorem unreadable_config_ignored_witness :
    ∃ p, startup "1.0" ⟨some "/nonexistent/path", none⟩ worldBare = .running p ∧ p.out = [] ∧
      p.viper.configFile = "/nonexistent/path" ∧ p.viper.config = [] :=
  unreadable_config_ignored "1.0" none worldBare "/nonexistent/path"
    "open /nonexistent/path: no such file or directory" (by decide) rfl

/-- C4: when `--config` is empty, the home directory resolves and holds no file named
`.paymail-inspector`, start-up returns normally (no exit), prints and logs nothing, and
`Get("bsvalias")` is the flag value if one was given, else the non-empty environment
value, else the declared default. -/
theorem missing_config_file_is_no_error (D : String) (c a : Option String) (w : World)
    (home : String) (hc : c.getD "" = "") (hh : w.homeDir = .ok home)
    (hnone : w.searchInPath (w.absPathify home) ("." ++ configDefault) = "") :
    ∃ p, startup D ⟨c, a⟩ w = .running p ∧ p.out = [] ∧
      Get w p flagBsvAlias =
        match a with
        | some v => some v
        | none =>
          match w.lookupEnv (toUpper flagBsvAlias) with
          | some e => if e = "" then some D else some e
          | none => some D := by
  have hn : "." ++ configDefault = ".paymail-inspector" := by decide
  have hup : toUpper flagBsvAlias = "BSVALIAS" := by decide
  rw [hn] at hnone
  rw [hup]
  have hstart := startup_eq D c a w
  rw [initConfig_search w (parsed D c a) home hc hh] at hstart
  have hpaths : ∀ cp ∈ ((parsed D c a).viper.AddConfigPath w home).configPaths,
      w.searchInPath cp ".paymail-inspector" = "" := by
    intro cp hcp
    by_cases hd : home = ""
    · simp [Viper.AddConfigPath, hd, Viper.new, parsed] at hcp
    · simp [Viper.AddConfigPath, hd, Viper.new, parsed] at hcp
      rw [hcp]; exact hnone
  obtain ⟨efind, hfind⟩ := findConfigFile_none w (Viper.AutomaticEnv
      { (parsed D c a).viper.AddConfigPath w home with
          configName := ".paymail-inspector", configFile := "" }) hpaths
  have hq := readAndLog_of_err w
    { parsed D c a with viper :=
        { (parsed D c a).viper.AddConfigPath w home with
            configName := ".paymail-inspector", configFile := "" } } _ _
    (readInConfig_search_none w _ _ rfl hfind)
  replace hstart := hstart.trans (congrArg Run.running hq)
  refine ⟨_, hstart, rfl, ?_⟩
  cases a with
  | some v =>
    have hg := get_startup_flag D c v w
    rw [hstart] at hg
    exact hg
  | none =>
    have hg := get_startup_noflag D c w
    rw [hstart] at hg
    simp only [Run.program] at hg
    rw [hg]
    have hcfg : ((parsed D c none).viper.AddConfigPath w home).config = [] := by
      by_cases hd : home = ""
      · simp [Viper.AddConfigPath, hd, Viper.new, parsed]
      · simp [Viper.AddConfigPath, hd, Viper.new, parsed]
    rcases w.lookupEnv "BSVALIAS" with _ | e
    · simp [Viper.AutomaticEnv, hcfg]
    · by_cases he : e = "" <;> simp [Viper.AutomaticEnv, hcfg, Option.filter, he]

/-- Witness of `missing_config_file_is_no_error`: no flags, no file, `BSVALIAS` empty -/
theorem missing_config_file_is_no_error_witness :
    ∃ p, startup "1.0" ⟨none, none⟩ worldEmptyEnv = .running p ∧ p.out = [] ∧
      Get worldEmptyEnv p flagBsvAlias =
        match (none : Option String) with
        | some v => some v
        | none =>
          match worldEmptyEnv.lookupEnv (toUpper flagBsvAlias) with
          | some e => if e = "" then some "1.0" else some e
          | none => some "1.0" :=
  missing_config_file_is_no_error "1.0" none none worldEmptyEnv "/home/u" (by decide)
    rfl (by decide)

/-- C7: `er` on a non-nil error prints the line `Error: ` followed by the message and
exits with status 1; on nil it returns without output and without exit; hence
`initConfig`, entered with an empty `--config` while the home directory lookup fails,
exits with status 1 with the viper instance untouched (no path registered, environment
not enabled, no file read). -/
theorem er_reports_and_exits :
    (∀ (msg : String) (p : Program),
      er (some msg) p = .exited 1 { p with out := p.out ++ [Output.stdout ("Error: " ++ msg)] }) ∧
    (∀ p : Program, er none p = .running p) ∧
    (∀ (w : World) (p : Program) (e : String), p.configFile = "" → w.homeDir = .error e →
      initConfig w p =
        .exited 1 { configFile := p.configFile, flags := p.flags, viper := p.viper,
                    out := p.out ++ [Output.stdout ("Error: " ++ e)] }) :=
  ⟨fun _ _ => rfl, fun _ => rfl, fun w p e hc hh => initConfig_abort w p e hc hh⟩

/-- Witness of `er_reports_and_exits`: start-up without a resolvable home directory -/
theorem er_reports_and_exits_witness :
    initConfig worldNoHome Program.start =
      .exited 1 { configFile := "", flags := [], viper := Viper.new,
                  out := [Output.stdout "Error: blank output when reading home directory"] } :=
  er_reports_and_exits.2.2 worldNoHome Program.start
    "blank output when reading home directory" rfl rfl

theorem readAndLog_explicit (w : World) (p : Program) (hc : p.viper.configFile ≠ "") :
    readAndLog w p =
      match w.readConfig p.viper.configFile with
      | .ok cfg =>
        { p with
            viper := { p.viper with automaticEnvApplied := true, config := cfg },
            out := p.out ++
              [Output.log Level.INFO ("loaded config file: " ++ p.viper.configFile)] }
      | .error _ => { p with viper := { p.viper with automaticEnvApplied := true } } := by
  cases hr : w.readConfig p.viper.configFile with
  | error e =>
    exact readAndLog_of_err w p _ e (readInConfig_explicit_err w p.viper.AutomaticEnv e hc hr)
  | ok cfg =>
    exact readAndLog_of_ok w p _ (readInConfig_explicit_ok w p.viper.AutomaticEnv cfg hc hr)

theorem readAndLog_search (w : World) (p : Program) (hc : p.viper.configFile = "") :
    readAndLog w p =
      match p.viper.findConfigFile w with
      | .error _ => { p with viper := { p.viper with automaticEnvApplied := true } }
      | .ok cf =>
        match w.readConfig cf with
        | .ok cfg =>
          { p with
              viper := { p.viper with
                automaticEnvApplied := true, configFile := cf, config := cfg },
              out := p.out ++ [Output.log Level.INFO ("loaded config file: " ++ cf)] }
        | .error _ =>
          { p with viper := { p.viper with automaticEnvApplied := true, configFile := cf } } := by
  have hfe : p.viper.AutomaticEnv.findConfigFile w = p.viper.findConfigFile w := rfl
  cases hf : p.viper.findConfigFile w with
  | error e =>
    exact readAndLog_of_err w p _ e
      (readInConfig_search_none w p.viper.AutomaticEnv e hc (hfe.trans hf))
  | ok cf =>
    dsimp only
    cases hr : w.readConfig cf with
    | error e =>
      exact readAndLog_of_err w p _ e
        (readInConfig_search_err w p.viper.AutomaticEnv cf e hc (hfe.trans hf) hr)
    | ok cfg =>
      exact readAndLog_of_ok w p _
        (readInConfig_search_ok w p.viper.AutomaticEnv cf cfg hc (hfe.trans hf) hr)

theorem findConfigFile_ne_empty (w : World) (v : Viper) (cf : String)
    (h : v.findConfigFile w = .ok cf) : cf ≠ "" := by
  unfold Viper.findConfigFile at h
  cases hfind : (v.configPaths.map (fun cp => w.searchInPath cp v.configName)).find?
      (fun f => f != "") with
  | none => rw [hfind] at h; cases h
  | some file =>
    rw [hfind] at h
    injection h with h
    have := List.find?_some hfind
    rw [← h]
    simpa using this

/-- What `readAndLog` leaves behind: either a file was read, installed and logged once,
or nothing was installed and nothing logged -/
theorem readAndLog_outcome (w : World) (p : Program) :
    ((readAndLog w p).viper.configFile ≠ "" ∧
      w.readConfig (readAndLog w p).viper.configFile = .ok (readAndLog w p).viper.config ∧
      (readAndLog w p).out = p.out ++
        [Output.log Level.INFO ("loaded config file: " ++ (readAndLog w p).viper.configFile)]) ∨
    (((readAndLog w p).viper.configFile = "" ∨
        ∃ e, w.readConfig (readAndLog w p).viper.configFile = .error e) ∧
      (readAndLog w p).viper.config = p.viper.config ∧
      (readAndLog w p).out = p.out) := by
  by_cases hc : p.viper.configFile = ""
  · rw [readAndLog_search w p hc]
    cases hf : p.viper.findConfigFile w with
    | error e => exact Or.inr ⟨Or.inl hc, rfl, rfl⟩
    | ok cf =>
      dsimp only
      cases hr : w.readConfig cf with
      | error e => exact Or.inr ⟨Or.inr ⟨e, hr⟩, rfl, rfl⟩
      | ok cfg => exact Or.inl ⟨findConfigFile_ne_empty w p.viper cf hf, hr, rfl⟩
  · rw [readAndLog_explicit w p hc]
    cases hr : w.readConfig p.viper.configFile with
    | error e => exact Or.inr ⟨Or.inr ⟨e, hr⟩, rfl, rfl⟩
    | ok cfg => exact Or.inl ⟨hc, hr, rfl⟩

theorem addConfigPath_config (w : World) (v : Viper) (dir : String) :
    (v.AddConfigPath w dir).config = v.config := by
  by_cases hd : dir = ""
  · simp [Viper.AddConfigPath, hd]
  · by_cases hm : w.absPathify dir ∈ v.configPaths <;> simp [Viper.AddConfigPath, hd, hm]

/-- C8: in a run of `initConfig` that does not abort, either a config file was read
successfully, and then exactly one message `loaded config file: <path>` is logged at
level INFO, naming the file whose content is now the config layer; or no file was found
or reading it failed, and then nothing at all is logged or printed and the config layer
is untouched. -/
theorem one_log_iff_config_loaded (w : World) (p q : Program)
    (h : initConfig w p = .running q) :
    (q.viper.ConfigFileUsed ≠ "" ∧
      w.readConfig q.viper.ConfigFileUsed = .ok q.viper.config ∧
      q.out = p.out ++
        [Output.log Level.INFO ("loaded config file: " ++ q.viper.ConfigFileUsed)]) ∨
    ((q.viper.ConfigFileUsed = "" ∨ ∃ e, w.readConfig q.viper.ConfigFileUsed = .error e) ∧
      q.viper.config = p.viper.config ∧
      q.out = p.out) := by
  by_cases hc : p.configFile = ""
  · cases hh : w.homeDir with
    | error e => rw [initConfig_abort w p e hc hh] at h; cases h
    | ok home =>
      rw [initConfig_search w p home hc hh] at h
      injection h with h
      have ho := readAndLog_outcome w { p with viper :=
        { p.viper.AddConfigPath w home with
            configName := ".paymail-inspector", configFile := "" } }
      rw [h] at ho
      have hcfg := addConfigPath_config w p.viper home
      simpa [Viper.ConfigFileUsed, hcfg] using ho
  · rw [initConfig_explicit w p hc] at h
    injection h with h
    have ho := readAndLog_outcome w { p with viper := { p.viper with configFile := p.configFile } }
    rw [h] at ho
    simpa [Viper.ConfigFileUsed] using ho

/-- Witness of `one_log_iff_config_loaded`: the run that loads `.paymail-inspector.yaml` -/
theorem one_log_iff_config_loaded_witness :
    (startup "1.0" ⟨none, none⟩ worldFileAndEnv).program.out =
      [Output.log Level.INFO "loaded config file: /home/u/.paymail-inspector.yaml"] := by
  have h := one_log_iff_config_loaded worldFileAndEnv (parsed "1.0" none none)
    (startup "1.0" ⟨none, none⟩ worldFileAndEnv).program (by decide)
  rcases h with ⟨_, _, h3⟩ | ⟨_, h2, _⟩
  · rw [h3]; decide
  · exact absurd h2 (by decide)

/-! ## Location of the config file, and running the resolution twice -/

theorem readAndLog_viper (w : World) (p : Program) :
    (readAndLog w p).viper = (p.viper.AutomaticEnv.ReadInConfig w).1 ∧
    (readAndLog w p).flags = p.flags ∧ (readAndLog w p).configFile = p.configFile := by
  rcases hR : p.viper.AutomaticEnv.ReadInConfig w with ⟨v, _ | e⟩
  · rw [readAndLog_of_ok w p v hR]; exact ⟨rfl, rfl, rfl⟩
  · rw [readAndLog_of_err w p v e hR]; exact ⟨rfl, rfl, rfl⟩

/-- The fields of the instance that `ReadInConfig` leaves alone -/
theorem readInConfig_keeps (w : World) (v : Viper) :
    (v.ReadInConfig w).1.configName = v.configName ∧
    (v.ReadInConfig w).1.configPaths = v.configPaths ∧
    (v.ReadInConfig w).1.automaticEnvApplied = v.automaticEnvApplied ∧
    ((v.ReadInConfig w).1.configFile = v.configFile ∨ v.configFile = "") := by
  by_cases hc : v.configFile = ""
  · rcases readInConfig_cases w v with ⟨file, cfg, _, h⟩ | ⟨file, e, h⟩ <;>
      rw [h] <;> exact ⟨rfl, rfl, rfl, Or.inr hc⟩
  · cases hr : w.readConfig v.configFile with
    | error e => rw [readInConfig_explicit_err w v e hc hr]; exact ⟨rfl, rfl, rfl, Or.inl rfl⟩
    | ok cfg => rw [readInConfig_explicit_ok w v cfg hc hr]; exact ⟨rfl, rfl, rfl, Or.inl rfl⟩

/-- Reading again from the same location, on top of the first result, changes nothing -/
theorem readInConfig_again (w : World) (v : Viper) :
    Viper.ReadInConfig w { (v.ReadInConfig w).1 with configFile := v.configFile } =
      v.ReadInConfig w := by
  by_cases hc : v.configFile = ""
  · cases hf : v.findConfigFile w with
    | error e =>
      rw [readInConfig_search_none w v e hc hf]
      exact readInConfig_search_none w _ e hc hf
    | ok cf =>
      cases hr : w.readConfig cf with
      | error e =>
        rw [readInConfig_search_err w v cf e hc hf hr]
        exact readInConfig_search_err w _ cf e hc hf hr
      | ok cfg =>
        rw [readInConfig_search_ok w v cf cfg hc hf hr]
        exact readInConfig_search_ok w _ cf cfg hc hf hr
  · cases hr : w.readConfig v.configFile with
    | error e =>
      rw [readInConfig_explicit_err w v e hc hr]
      exact readInConfig_explicit_err w _ e hc hr
    | ok cfg =>
      rw [readInConfig_explicit_ok w v cfg hc hr]
      exact readInConfig_explicit_ok w _ cfg hc hr

theorem readInConfig_again_fst (w : World) (v r : Viper) (hr : r = (v.ReadInConfig w).1) :
    (Viper.ReadInConfig w { r with configFile := v.configFile }).1 = r := by
  subst hr
  rw [readInConfig_again]

theorem addConfigPath_absorb (w : World) (v v2 : Viper) (home : String)
    (hp : v2.configPaths = (v.AddConfigPath w home).configPaths) :
    v2.AddConfigPath w home = v2 := by
  by_cases hd : home = ""
  · simp [Viper.AddConfigPath, hd]
  · have hm : w.absPathify home ∈ v2.configPaths := by
      rw [hp]
      by_cases hm : w.absPathify home ∈ v.configPaths <;> simp [Viper.AddConfigPath, hd, hm]
    simp [Viper.AddConfigPath, hd, hm]

/-- A second run of `initConfig` leaves the viper instance and the flags as the first
run left them -/
theorem initConfig_again (w : World) (p q : Program) (h : initConfig w p = .running q) :
    ∃ q2, initConfig w q = .running q2 ∧ q2.viper = q.viper ∧ q2.flags = q.flags := by
  by_cases hc : p.configFile = ""
  · cases hh : w.homeDir with
    | error e => rw [initConfig_abort w p e hc hh] at h; cases h
    | ok home =>
      rw [initConfig_search w p home hc hh] at h
      injection h with h
      obtain ⟨hv, _, hcf⟩ := readAndLog_viper w { p with viper :=
        { p.viper.AddConfigPath w home with
            configName := ".paymail-inspector", configFile := "" } }
      rw [h] at hv hcf
      obtain ⟨k1, k2, k3, _⟩ := readInConfig_keeps w (Viper.AutomaticEnv
        { p.viper.AddConfigPath w home with
            configName := ".paymail-inspector", configFile := "" })
      rw [← hv] at k1 k2 k3
      have hqc : q.configFile = "" := hcf.trans hc
      refine ⟨_, initConfig_search w q home hqc hh, ?_, (readAndLog_viper w _).2.1⟩
      rw [(readAndLog_viper w _).1]
      have hprep : Viper.AutomaticEnv
          { q.viper.AddConfigPath w home with
              configName := ".paymail-inspector", configFile := "" } =
          { q.viper with configFile := "" } := by
        rw [addConfigPath_absorb w p.viper q.viper home k2]
        simp only [Viper.AutomaticEnv]
        have k3b : q.viper.automaticEnvApplied = true := k3
        have k1b : q.viper.configName = ".paymail-inspector" := k1
        rw [← k3b, ← k1b]
      show (Viper.ReadInConfig w (Viper.AutomaticEnv
          { q.viper.AddConfigPath w home with
              configName := ".paymail-inspector", configFile := "" })).1 = q.viper
      rw [hprep]
      exact readInConfig_again_fst w (Viper.AutomaticEnv
        { p.viper.AddConfigPath w home with
            configName := ".paymail-inspector", configFile := "" }) q.viper hv
  · rw [initConfig_explicit w p hc] at h
    injection h with h
    obtain ⟨hv, _, hcf⟩ := readAndLog_viper w
      { p with viper := { p.viper with configFile := p.configFile } }
    rw [h] at hv hcf
    obtain ⟨_, _, k3, k4⟩ := readInConfig_keeps w (Viper.AutomaticEnv
      { p.viper with configFile := p.configFile })
    rw [← hv] at k3 k4
    have hqc : q.configFile ≠ "" := by rw [hcf]; exact hc
    refine ⟨_, initConfig_explicit w q hqc, ?_, (readAndLog_viper w _).2.1⟩
    rw [(readAndLog_viper w _).1]
    have hprep : Viper.AutomaticEnv { q.viper with configFile := q.configFile } =
        { q.viper with configFile := p.configFile } := by
      simp only [Viper.AutomaticEnv]
      have k3b : q.viper.automaticEnvApplied = true := k3
      rw [← k3b, hcf]
    show (Viper.ReadInConfig w
      (Viper.AutomaticEnv { q.viper with configFile := q.configFile })).1 = q.viper
    rw [hprep]
    exact readInConfig_again_fst w
      (Viper.AutomaticEnv { p.viper with configFile := p.configFile }) q.viper hv

/-- C9: running `initConfig` a second time, with the same flags, file system and
environment, changes no resolved value: for every key, `Get` after two runs equals `Get`
after one run (a run that exits is not followed by a second one). -/
theorem resolution_is_idempotent (w : World) (p : Program) (key : String) :
    Get w ((initConfig w p).andThen (initConfig w)).program key =
      Get w (initConfig w p).program key := by
  cases h : initConfig w p with
  | exited code q => rfl
  | running q =>
    obtain ⟨q2, h2, hv, hf⟩ := initConfig_again w p q h
    simp only [Run.andThen, h2, Run.program, Get, hv, hf]

/-- C10, as stated, fails when the home directory lookup returns the empty string
without error: with `--config` empty, `AddConfigPath` ignores the empty path, so no search
path at all is registered, rather than the home directory. -/
theorem empty_home_adds_no_search_path :
    worldEmptyHome.homeDir = .ok "" ∧
    startup "1.0" ⟨none, none⟩ worldEmptyHome =
      .running (startup "1.0" ⟨none, none⟩ worldEmptyHome).program ∧
    (startup "1.0" ⟨none, none⟩ worldEmptyHome).program.viper.configPaths = [] ∧
    (startup "1.0" ⟨none, none⟩ worldEmptyHome).program.viper.configPaths
      ≠ [worldEmptyHome.absPathify ""] :=
  ⟨rfl, by decide, by decide, by decide⟩

/-- C10, amended: the config file location depends on the value of `--config` alone. If
it is a non-empty path, that exact path is the config file, no search path is registered,
and the outcome is the same whatever the home directory lookup would return (it is never
consulted, so its failure cannot abort). If it is empty and the lookup returns `home`,
the base name searched is `.paymail-inspector`, that is `.` followed by `configDefault`,
and the search paths are exactly the normalised `home` when `home` is non-empty, and
none when `home` is the empty string. -/
theorem config_location_by_flag_alone (D : String) (a : Option String) (w : World) :
    (∀ path : String, path ≠ "" →
      ∃ q, startup D ⟨some path, a⟩ w = .running q ∧
        q.viper.ConfigFileUsed = path ∧ q.viper.configPaths = [] ∧
        ∀ hd : Except String String,
          startup D ⟨some path, a⟩ { w with homeDir := hd } = .running q) ∧
    (∀ (c : Option String) (home : String),
      c.getD "" = "" → w.homeDir = .ok home →
      ∃ q, startup D ⟨c, a⟩ w = .running q ∧
        q.viper.configPaths = (if home = "" then [] else [w.absPathify home]) ∧
        q.viper.configName = "." ++ configDefault ∧
        q.viper.configName = ".paymail-inspector") := by
  constructor
  · intro path hp
    have hstart := startup_eq D (some path) a w
    rw [initConfig_explicit w (parsed D (some path) a) hp] at hstart
    obtain ⟨hv, _, _⟩ := readAndLog_viper w
      { parsed D (some path) a with
          viper := { (parsed D (some path) a).viper with configFile := path } }
    obtain ⟨_, k2, _, k4⟩ := readInConfig_keeps w (Viper.AutomaticEnv
      { (parsed D (some path) a).viper with configFile := path })
    refine ⟨_, hstart, ?_, ?_, ?_⟩
    · rcases k4 with k4 | k4
      · exact (congrArg Viper.configFile hv).trans k4
      · exact absurd k4 hp
    · exact (congrArg Viper.configPaths hv).trans k2
    · intro hd
      have hstart2 := startup_eq D (some path) a { w with homeDir := hd }
      rw [initConfig_explicit _ (parsed D (some path) a) hp] at hstart2
      exact hstart2
  · intro c home hc hh
    have hn : "." ++ configDefault = ".paymail-inspector" := by decide
    have hstart := startup_eq D c a w
    rw [initConfig_search w (parsed D c a) home hc hh] at hstart
    obtain ⟨hv, _, _⟩ := readAndLog_viper w
      { parsed D c a with viper :=
        { (parsed D c a).viper.AddConfigPath w home with
            configName := ".paymail-inspector", configFile := "" } }
    obtain ⟨k1, k2, _, _⟩ := readInConfig_keeps w (Viper.AutomaticEnv
      { (parsed D c a).viper.AddConfigPath w home with
          configName := ".paymail-inspector", configFile := "" })
    have hpaths : ((parsed D c a).viper.AddConfigPath w home).configPaths =
        (if home = "" then [] else [w.absPathify home]) := by
      by_cases hd : home = ""
      · simp [Viper.AddConfigPath, hd, Viper.new, parsed]
      · simp [Viper.AddConfigPath, hd, Viper.new, parsed]
    refine ⟨_, hstart, ?_, ?_, ?_⟩
    · exact ((congrArg Viper.configPaths hv).trans k2).trans hpaths
    · rw [hn]; exact (congrArg Viper.configName hv).trans k1
    · exact (congrArg Viper.configName hv).trans k1

/-- Witness of `config_location_by_flag_alone`: an explicit path in a world without a home
directory, the default search in a world with one, and the default search when the home
directory is the empty string -/
theorem config_location_by_flag_alone_witness :
    (∃ q, startup "1.0" ⟨some "/etc/pi.yaml", none⟩ worldNoHome = .running q ∧
        q.viper.ConfigFileUsed = "/etc/pi.yaml" ∧ q.viper.configPaths = [] ∧
        ∀ hd : Except String String,
          startup "1.0" ⟨some "/etc/pi.yaml", none⟩ { worldNoHome with homeDir := hd }
            = .running q) ∧
    (∃ q, startup "1.0" ⟨none, none⟩ worldBare = .running q ∧
        q.viper.configPaths =
          (if "/home/u" = "" then [] else [worldBare.absPathify "/home/u"]) ∧
        q.viper.configName = "." ++ configDefault ∧
        q.viper.configName = ".paymail-inspector") ∧
    (∃ q, startup "1.0" ⟨none, none⟩ worldEmptyHome = .running q ∧
        q.viper.configPaths = (if "" = "" then [] else [worldEmptyHome.absPathify ""]) ∧
        q.viper.configName = "." ++ configDefault ∧
        q.viper.configName = ".paymail-inspector") :=
  ⟨(config_location_by_flag_alone "1.0" none worldNoHome).1 "/etc/pi.yaml" (by decide),
   (config_location_by_flag_alone "1.0" none worldBare).2 none "/home/u" rfl rfl,
   (config_location_by_flag_alone "1.0" none worldEmptyHome).2 none "" rfl rfl⟩

/-- The default search goes by base name, not by the extension named in the help text of
`--config` (`$HOME/.paymail-inspector.yaml`): in a home directory holding
`.paymail-inspector.json` and no `.paymail-inspector.yaml`, the `.json` file is the one
read and logged. -/
theorem default_search_loads_any_extension :
    (lookupFlag (startup "1.0" ⟨none, none⟩ worldJsonFile).program.flags "config").map
        (fun f => f.usage) = some "config file (default is $HOME/.paymail-inspector.yaml)" ∧
    (worldJsonFile.readConfig "/home/u/.paymail-inspector.yaml").toOption = none ∧
    (startup "1.0" ⟨none, none⟩ worldJsonFile).program.viper.ConfigFileUsed
      = "/home/u/.paymail-inspector.json" ∧
    (startup "1.0" ⟨none, none⟩ worldJsonFile).program.viper.config = [("bsvalias", "2.0")] ∧
    (startup "1.0" ⟨none, none⟩ worldJsonFile).program.out =
      [Output.log Level.INFO "loaded config file: /home/u/.paymail-inspector.json"] :=
  ⟨by decide, rfl, by decide, by decide, by decide⟩

end PaymailInspector
